import Mathlib

/-!
# Verification of the pyabif ABIF reader (`pyabif/abif.py`)

A shallow embedding of the binary directory-and-typed-value decoding engine
of `pyabif`: the `struct`-format driven byte decoding, the header/directory
parsing, and the tag/value read paths, together with theorems settling the
frozen specification claims.

Conventions of the embedding:
* Python byte strings are `List Nat` (each entry one byte value).
* Python text strings are `List Nat` of Unicode code points.
* Python exceptions are constructors of `PyErr`; the state of the reader
  survives a raised exception (CPython mutates `self` in place), so every
  method returns `Except PyErr α × ABIFState`.
-/

namespace PyABIF

/-- Code points (equivalently, for ASCII, bytes) of a Lean string literal. -/
def strBytes (s : String) : List Nat := s.toList.map Char.toNat

/-- Big-endian unsigned value of a byte list. -/
def beNat : List Nat → Nat
  | [] => 0
  | b :: bs => b * 256 ^ bs.length + beNat bs

/-- Two's-complement reading of an unsigned `w`-byte value. -/
def toSigned (w : Nat) (n : Nat) : Int :=
  if n < 2 ^ (8 * w - 1) then (n : Int) else (n : Int) - 2 ^ (8 * w)

/-- Big-endian two's-complement encoding of an integer into `w` bytes,
as `struct.pack` produces for an in-range value. -/
def packBE (w : Nat) (i : Int) : List Nat :=
  (List.range w).map fun k => ((i % (2 ^ (8 * w))).toNat / 256 ^ (w - 1 - k)) % 256

/-- Is `b` a UTF-8 continuation byte (`0b10xxxxxx`)? -/
def isCont (b : Nat) : Bool := 128 ≤ b && b < 192

/-- Strict UTF-8 decoding of a byte list into code points, as Python's
`bytes.decode()` performs; `none` models `UnicodeDecodeError`. -/
def utf8Decode : List Nat → Option (List Nat)
  | [] => some []
  | b :: bs =>
    if b < 128 then (utf8Decode bs).map (b :: ·)
    else if b < 194 then none
    else if b < 224 then
      match bs with
      | c1 :: rest =>
        if isCont c1 then
          (utf8Decode rest).map (((b % 32) * 64 + c1 % 64) :: ·)
        else none
      | [] => none
    else if b < 240 then
      match bs with
      | c1 :: c2 :: rest =>
        if isCont c1 && isCont c2 then
          let cp := (b % 16) * 4096 + (c1 % 64) * 64 + c2 % 64
          if cp < 2048 || (55296 ≤ cp && cp < 57344) then none
          else (utf8Decode rest).map (cp :: ·)
        else none
      | _ => none
    else if b < 245 then
      match bs with
      | c1 :: c2 :: c3 :: rest =>
        if isCont c1 && isCont c2 && isCont c3 then
          let cp := (b % 8) * 262144 + (c1 % 64) * 4096 + (c2 % 64) * 64 + c3 % 64
          if cp < 65536 || 1114112 ≤ cp then none
          else (utf8Decode rest).map (cp :: ·)
        else none
      | _ => none
    else none

/-- Python exceptions raised by the reader, one constructor per
exception class the code can raise. -/
inductive PyErr where
  | structError
  | unicodeDecodeError
  | attributeError
  | valueError (msg : String)
  | assertionError
  | typeError
  | indexError
  | osError
  deriving Repr, DecidableEq

/-- Python values produced by decoding: the possible results of
`struct.unpack` fields and of the post-processing in `ABIF.read`.
IEEE floats are carried as their raw bit patterns (the decoder never
computes with them). -/
inductive PyVal where
  | int (i : Int)
  | bool (b : Bool)
  | bytes (bs : List Nat)
  | str (s : List Nat)
  | float32 (bits : Nat)
  | float64 (bits : Nat)
  | list (vs : List PyVal)
  | date (y m d : Int)
  | time (h mi s us : Int)

/-- `struct` format codes used by the reader (`TYPES`, `HEADER`, `ITEM`). -/
inductive FCode where
  | cs | cp | cB | cH | ch | ci | cl | cf | cd | cBool
  deriving Repr, DecidableEq

/-- The format character of each supported `struct` code. -/
def codeOfChar (c : Char) : Option FCode :=
  if c = 's' then some .cs
  else if c = 'p' then some .cp
  else if c = 'B' then some .cB
  else if c = 'H' then some .cH
  else if c = 'h' then some .ch
  else if c = 'i' then some .ci
  else if c = 'l' then some .cl
  else if c = 'f' then some .cf
  else if c = 'd' then some .cd
  else if c = '?' then some .cBool
  else none

/-- Consume a run of leading decimal digits, accumulating their value, as
`struct`'s format scanner does for repeat counts. -/
def splitCount : List Char → Nat → Nat × List Char
  | c :: rest, acc =>
    if c.isDigit then splitCount rest (acc * 10 + (c.toNat - 48)) else (acc, c :: rest)
  | [], acc => (acc, [])

/-- Parse the items of a `struct` format string (after the byte-order
prefix): an optional decimal count followed by a format character, repeated.
`fuel` bounds the recursion; each step consumes at least one character, so
the caller passes the string length. -/
def parseItemsFuel : Nat → List Char → Option (List (Nat × FCode))
  | _, [] => some []
  | 0, _ :: _ => none
  | fuel + 1, c :: rest =>
    if c.isDigit then
      match splitCount rest (c.toNat - 48) with
      | (n, c2 :: rest2) =>
        match codeOfChar c2 with
        | some fc => (parseItemsFuel fuel rest2).map fun l => (n, fc) :: l
        | none => none
      | (_, []) => none
    else
      match codeOfChar c with
      | some fc => (parseItemsFuel fuel rest).map fun l => (1, fc) :: l
      | none => none

/-- Parse a full format string, stripping the big-endian marker the code
always prepends (`ENDIAN = '>'`, so no alignment padding applies). -/
def parseFmt (fmt : List Char) : Option (List (Nat × FCode)) :=
  let body := match fmt with
    | c :: rest => if c = '>' then rest else fmt
    | [] => []
  parseItemsFuel body.length body

/-- Byte width of one element of a fixed-width code. -/
def codeSize : FCode → Nat
  | .cs => 1 | .cp => 1 | .cB => 1 | .cBool => 1
  | .cH => 2 | .ch => 2
  | .ci => 4 | .cl => 4 | .cf => 4
  | .cd => 8

/-- `struct.calcsize` of parsed items: for `s`/`p` the count is the byte
length of the single string field, otherwise it is a repeat count. -/
def itemsSize : List (Nat × FCode) → Nat
  | [] => 0
  | (n, .cs) :: rest => n + itemsSize rest
  | (n, .cp) :: rest => n + itemsSize rest
  | (n, fc) :: rest => n * codeSize fc + itemsSize rest

/-- Decode one fixed-width field from exactly `codeSize fc` bytes. -/
def unpackFixed (fc : FCode) (bs : List Nat) : PyVal :=
  match fc with
  | .cB => .int (beNat bs)
  | .cH => .int (beNat bs)
  | .ch => .int (toSigned 2 (beNat bs))
  | .ci => .int (toSigned 4 (beNat bs))
  | .cl => .int (toSigned 4 (beNat bs))
  | .cf => .float32 (beNat bs)
  | .cd => .float64 (beNat bs)
  | .cBool => .bool (decide (beNat bs ≠ 0))
  | .cs => .bytes bs
  | .cp => .bytes bs

/-- `n` successive fixed-width fields of code `fc`. -/
def replicateVals (n : Nat) (fc : FCode) (bs : List Nat) : List PyVal :=
  match n with
  | 0 => []
  | k + 1 => unpackFixed fc (bs.take (codeSize fc)) :: replicateVals k fc (bs.drop (codeSize fc))

/-- A Pascal-style `p` field of declared width `n`: the first byte is the
length, capped at `n - 1`. -/
def pascalVal (n : Nat) (bs : List Nat) : PyVal :=
  match n with
  | 0 => .bytes []
  | _ + 1 =>
    match bs with
    | [] => .bytes []
    | len :: rest => .bytes (rest.take (min len (n - 1)))

/-- Decode all parsed format items from a byte list (whose exact length the
caller has checked against `itemsSize`). -/
def unpackItems : List (Nat × FCode) → List Nat → List PyVal
  | [], _ => []
  | (n, .cs) :: rest, bs => .bytes (bs.take n) :: unpackItems rest (bs.drop n)
  | (n, .cp) :: rest, bs => pascalVal n bs :: unpackItems rest (bs.drop n)
  | (n, fc) :: rest, bs => replicateVals n fc bs ++ unpackItems rest (bs.drop (n * codeSize fc))

/-- `struct.calcsize`, failing with `struct.error` on a malformed format
(such as the `'-'` placeholders of `TYPES`). -/
def calcsizeE (fmt : List Char) : Except PyErr Nat :=
  match parseFmt fmt with
  | none => .error .structError
  | some items => .ok (itemsSize items)

/-- `struct.unpack(fmt, packed)`: requires the byte count to equal
`calcsize` exactly, then decodes each field big-endian. -/
def structUnpack (fmt : List Char) (packed : List Nat) : Except PyErr (List PyVal) :=
  match parseFmt fmt with
  | none => .error .structError
  | some items =>
    if packed.length = itemsSize items then .ok (unpackItems items packed)
    else .error .structError

/-- `struct.pack('>l', i)`: a signed 32-bit big-endian encoding, failing
with `struct.error` when the argument is out of range. -/
def structPackL (i : Int) : Except PyErr (List Nat) :=
  if -(2 ^ 31) ≤ i ∧ i < 2 ^ 31 then .ok (packBE 4 i) else .error .structError

/-- Python equality of a decoded value against an int literal (`one == 1`);
a bool compares as its int value, other kinds compare unequal. -/
def pyEqInt (v : PyVal) (n : Int) : Bool :=
  match v with
  | .int i => i = n
  | .bool b => (if b then (1 : Int) else 0) = n
  | _ => false

/-- `datetime.date(*args)`: exactly three int arguments, range-checked
(`ValueError` out of range, `TypeError` on bad arity or kind). -/
def isLeap (y : Int) : Bool := (y % 4 = 0 && y % 100 ≠ 0) || y % 400 = 0

/-- Days of month `m` in year `y` (for `datetime.date` range validation). -/
def daysInMonth (y m : Int) : Int :=
  if m = 2 then (if isLeap y then 29 else 28)
  else if m = 4 ∨ m = 6 ∨ m = 9 ∨ m = 11 then 30
  else 31

/-- `datetime.date(*value)` applied to a decoded value. -/
def pyDate (v : PyVal) : Except PyErr PyVal :=
  match v with
  | .list [.int y, .int m, .int d] =>
    if 1 ≤ y ∧ y ≤ 9999 ∧ 1 ≤ m ∧ m ≤ 12 ∧ 1 ≤ d ∧ d ≤ daysInMonth y m
    then .ok (.date y m d)
    else .error (.valueError "date argument out of range")
  | _ => .error .typeError

/-- `datetime.time(h=0, m=0, s=0, us=0)` with range validation. -/
def mkTime (h mi s us : Int) : Except PyErr PyVal :=
  if 0 ≤ h ∧ h < 24 ∧ 0 ≤ mi ∧ mi < 60 ∧ 0 ≤ s ∧ s < 60 ∧ 0 ≤ us ∧ us < 1000000
  then .ok (.time h mi s us)
  else .error (.valueError "time argument out of range")

/-- `datetime.time(*value)` applied to a decoded value (0 to 4 positional
int arguments; anything else is a `TypeError`). -/
def pyTime (v : PyVal) : Except PyErr PyVal :=
  match v with
  | .list [] => mkTime 0 0 0 0
  | .list [.int h] => mkTime h 0 0 0
  | .list [.int h, .int mi] => mkTime h mi 0 0
  | .list [.int h, .int mi, .int s] => mkTime h mi s 0
  | .list [.int h, .int mi, .int s, .int us] => mkTime h mi s us
  | _ => .error .typeError

/-- One element of a `bytes(list)` conversion: ints (and bools) in 0..255. -/
def pyByteElem (v : PyVal) : Except PyErr Nat :=
  match v with
  | .int i => if 0 ≤ i ∧ i < 256 then .ok i.toNat else .error (.valueError "byte out of range")
  | .bool b => .ok (if b then 1 else 0)
  | _ => .error .typeError

/-- Elementwise `bytes(list)` conversion. -/
def pyByteList : List PyVal → Except PyErr (List Nat)
  | [] => .ok []
  | v :: rest => do
    let b ← pyByteElem v
    let bs ← pyByteList rest
    .ok (b :: bs)

/-- Python's `bytes(value)`: an int count yields that many NUL bytes, a
sequence of ints yields those bytes, bytes pass through, text is a
`TypeError` without an encoding. -/
def pyBytes (v : PyVal) : Except PyErr PyVal :=
  match v with
  | .int n => if 0 ≤ n then .ok (.bytes (List.replicate n.toNat 0))
              else .error (.valueError "negative count")
  | .bool b => .ok (.bytes (List.replicate (if b then 1 else 0) 0))
  | .bytes bs => .ok (.bytes bs)
  | .list vs => (pyByteList vs).map .bytes
  | _ => .error .typeError

/-- Strip one trailing NUL code point, as `_unpack` does on a decoded
single string (`if data.endswith(chr(0)): data = data[:-1]`). -/
def stripTrailingNul (s : List Nat) : List Nat :=
  if s.getLast? = some 0 then s.dropLast else s

/-- Post-processing of a single-element `struct.unpack` result in
`ABIF._unpack`: a bytes value is text-decoded (`AttributeError` on non-bytes
values is swallowed, a `UnicodeDecodeError` propagates) and loses one
trailing NUL; every other kind of value is returned unchanged. -/
def decodeSingle (v : PyVal) : Except PyErr PyVal :=
  match v with
  | .bytes bs =>
    match utf8Decode bs with
    | none => .error .unicodeDecodeError
    | some cps => .ok (.str (stripTrailingNul cps))
  | _ => .ok v

/-- A Python binary file object: contents, cursor, closed flag. -/
structure FileObj where
  data : List Nat
  pos : Nat
  fclosed : Bool
  deriving Repr, DecidableEq

/-- `fileobj.read(n)`: at most `n` bytes from the cursor (fewer at EOF),
advancing the cursor; `ValueError` on a closed file. -/
def FileObj.readBytes (f : FileObj) (n : Nat) : Except PyErr (List Nat × FileObj) :=
  if f.fclosed then .error (.valueError "I/O operation on closed file.")
  else
    let bs := (f.data.drop f.pos).take n
    .ok (bs, { f with pos := f.pos + bs.length })

/-- `fileobj.seek(off)`: absolute positioning; negative offsets raise. -/
def FileObj.seekTo (f : FileObj) (off : Int) : Except PyErr FileObj :=
  if f.fclosed then .error (.valueError "I/O operation on closed file.")
  else if off < 0 then .error .osError
  else .ok { f with pos := off.toNat }

/-- `fileobj.close()`: idempotent. -/
def FileObj.closeFile (f : FileObj) : FileObj := { f with fclosed := true }

/-- The mutable attributes of an `ABIF` instance (constructed from a file
object, so `filename is None`); `none` models an attribute not yet set
(`closedFlag = none` is Python's `self.closed = None`). The directory is the
insertion-ordered dict keyed by `(tag, number)` with value
`(type, elements, size, offset)`. -/
structure ABIFState where
  fileobj : FileObj
  closedFlag : Option Bool
  version : Option Int
  dirOffset : Option Int
  dirElements : Option Int
  directory : Option (List ((List Nat × Int) × (Int × Int × Int × Int)))
  deriving Repr, DecidableEq

/-- Python dict assignment `d[k] = v`: replace in place or append. -/
def dictSet {K V : Type} [DecidableEq K] : List (K × V) → K → V → List (K × V)
  | [], k, v => [(k, v)]
  | (k2, v2) :: rest, k, v =>
    if k2 = k then (k, v) :: rest else (k2, v2) :: dictSet rest k v

/-- Python dict lookup `d[k]` (as an `Option`; a miss is a `KeyError`). -/
def dictGet {K V : Type} [DecidableEq K] : List (K × V) → K → Option V
  | [], _ => none
  | (k2, v2) :: rest, k => if k2 = k then some v2 else dictGet rest k

/-- A method result: the outcome and the (always surviving) object state. -/
abbrev StResult (α : Type) := Except PyErr α × ABIFState

/-- Sequencing of stateful methods: an exception short-circuits but keeps
the state reached so far, as CPython's in-place mutation does. -/
def bindR {α β : Type} (r : StResult α)
    (f : α → ABIFState → StResult β) : StResult β :=
  match r with
  | (.ok a, st) => f a st
  | (.error e, st) => (.error e, st)

/-- `HEADER = f'{ENDIAN}4sh'`. -/
def HEADER : List Char := ">4sh".toList

/-- `ITEM = f'{ENDIAN}4si2h4i'`. -/
def ITEM : List Char := ">4si2h4i".toList

/-- `TYPES = '- B B H h l - f d - h2B 4B llBB ? - - - - p s'.split()`:
the split applied, one token per type code. -/
def TYPES : List (List Char) :=
  [['-'], ['B'], ['B'], ['H'], ['h'], ['l'], ['-'], ['f'], ['d'], ['-'],
    ['h', '2', 'B'], ['4', 'B'], ['l', 'l', 'B', 'B'], ['?'],
    ['-'], ['-'], ['-'], ['-'], ['p'], ['s']]

/-- Python list indexing with negative-index wraparound; `none` models an
`IndexError`. -/
def pyIndex {α : Type} (l : List α) (i : Int) : Option α :=
  let j := if i < 0 then (l.length : Int) + i else i
  if 0 ≤ j then l[j.toNat]? else none

/-- The message marker of the `ValueError` raised by `__getattr__` for an
unopened reader (the code formats `f'{self} is not opened.'`; the object
repr prefix is immaterial and omitted). -/
def notOpenedMsg : String := "is not opened."

/-- `ABIF._unpack(format, packed=None, offset=None)`.

`if offset:` is Python truthiness, so `offset=0` (and `offset=None`) skips
both the `assert packed is None` and the seek. Then the source bytes are
either read from the file (`calcsize` many) or the given buffer truncated
to `calcsize`; `struct.unpack` requires the exact size. A single-element
result is post-processed by `decodeSingle`; a multi-element result is the
plain list. -/
def mUnpack (fmt : List Char) (packed : Option (List Nat)) (offset : Option Int)
    (st : ABIFState) : StResult PyVal :=
  let step1 : StResult Unit :=
    match offset with
    | some off =>
      if off ≠ 0 then
        if packed.isSome then (.error .assertionError, st)
        else
          match st.fileobj.seekTo off with
          | .error e => (.error e, st)
          | .ok f => (.ok (), { st with fileobj := f })
      else (.ok (), st)
    | none => (.ok (), st)
  bindR step1 fun _ st =>
    match calcsizeE fmt with
    | .error e => (.error e, st)
    | .ok sz =>
      let getBytes : StResult (List Nat) :=
        match packed with
        | none =>
          match st.fileobj.readBytes sz with
          | .error e => (.error e, st)
          | .ok (bs, f) => (.ok bs, { st with fileobj := f })
        | some p => (.ok (p.take sz), st)
      bindR getBytes fun bs st =>
        match structUnpack fmt bs with
        | .error e => (.error e, st)
        | .ok vals =>
          match vals with
          | [v] =>
            match decodeSingle v with
            | .error e => (.error e, st)
            | .ok v2 => (.ok v2, st)
          | _ => (.ok (.list vals), st)

/-- `ABIF._read_header`: unpack `HEADER` at offset 0, assert the `ABIF`
magic, store the version; unpack the bootstrap `ITEM`, assert the `tdir`
sentinel tag and the count-of-one field, store the directory offset and
element count. The unreachable `typeError` arms stand for the shape of an
8-field `ITEM` unpack, which is fixed by its format. -/
def mReadHeader (st : ABIFState) : StResult Unit :=
  bindR (mUnpack HEADER none (some 0) st) fun v st =>
    match v with
    | .list [.bytes ab, .int ver] =>
      if ab = strBytes "ABIF" then
        let st := { st with version := some ver }
        bindR (mUnpack ITEM none none st) fun dv st =>
          match dv with
          | .list [.bytes tdir, one, _t, _es, elements, _size, offset, _h] =>
            if tdir = strBytes "tdir" then
              if pyEqInt one 1 then
                match elements, offset with
                | .int el, .int off =>
                  (.ok (), { st with dirOffset := some off, dirElements := some el })
                | _, _ => (.error .typeError, st)
              else (.error .assertionError, st)
            else (.error .assertionError, st)
          | _ => (.error .typeError, st)
      else (.error .assertionError, st)
    | _ => (.error .typeError, st)

/-- The body of the `for i in range(self._dir_elements)` loop of
`ABIF._read_directory`, iterated `k` times: unpack one `ITEM`, text-decode
the 4 tag bytes (no NUL trimming happens here — the 8-field unpack skips
the single-element path of `_unpack`), store
`directory[tag, num] = (type, elements, size, offset)`. -/
def mReadDirLoop : Nat → ABIFState → StResult Unit
  | 0, st => (.ok (), st)
  | k + 1, st =>
    bindR (mUnpack ITEM none none st) fun item st =>
      match item with
      | .list [.bytes tagB, .int num, .int ty, _es, .int elements, .int size, .int off, _h] =>
        match utf8Decode tagB with
        | none => (.error .unicodeDecodeError, st)
        | some tag =>
          let d := st.directory.getD []
          mReadDirLoop k
            { st with directory := some (dictSet d (tag, num) (ty, elements, size, off)) }
      | _ => (.error .typeError, st)

/-- `ABIF._read_directory`: seek to the directory offset, reset the
directory to an empty dict, then read `_dir_elements` records (a negative
count iterates zero times, as `range` does). -/
def mReadDirectory (st : ABIFState) : StResult Unit :=
  match st.dirOffset with
  | none => (.error .attributeError, st)
  | some off =>
    match st.fileobj.seekTo off with
    | .error e => (.error e, st)
    | .ok f =>
      let st := { st with fileobj := f }
      match st.dirElements with
      | none => (.error .attributeError, st)
      | some el =>
        let st := { st with directory := some [] }
        mReadDirLoop el.toNat st

/-- `ABIF.open` for a reader constructed from a file object (the
`self.filename` branch re-opens by name and is not modelled): read the
header, read the directory, then set `self.closed = False`. -/
def mOpen (st : ABIFState) : StResult Unit :=
  bindR (mReadHeader st) fun _ st =>
    bindR (mReadDirectory st) fun _ st =>
      (.ok (), { st with closedFlag := some false })

/-- `ABIF.close`: `if self.closed is False: self.fileobj.close()`. Note the
code never flips `self.closed` to `True`; only the file object's own
(idempotent) close runs. -/
def mClose (st : ABIFState) : StResult Unit :=
  if st.closedFlag = some false then
    (.ok (), { st with fileobj := st.fileobj.closeFile })
  else (.ok (), st)

/-- Python `str(i)` for an int, as characters. -/
def intChars (i : Int) : List Char :=
  if i < 0 then '-' :: Nat.toDigits 10 (-i).toNat else Nat.toDigits 10 i.toNat

/-- Python `str(i)` for an int, as code points. -/
def strOfInt (i : Int) : List Nat :=
  (intChars i).map Char.toNat

/-- Value of a nonempty all-digit code-point list. -/
def digitsVal : List Nat → Nat → Option Nat
  | [], _ => none
  | [c], acc => if 48 ≤ c ∧ c ≤ 57 then some (acc * 10 + (c - 48)) else none
  | c :: rest, acc =>
    if 48 ≤ c ∧ c ≤ 57 then digitsVal rest (acc * 10 + (c - 48)) else none

/-- Python `int(s)` on a string of an optional sign and decimal digits
(whitespace and underscore forms never arise here); `none` models the
`ValueError` for a malformed literal. -/
def strToInt (s : List Nat) : Option Int :=
  match s with
  | 45 :: rest => (digitsVal rest 0).map fun n => -(n : Int)
  | 43 :: rest => (digitsVal rest 0).map fun n => (n : Int)
  | _ => (digitsVal s 0).map fun n => (n : Int)

/-- The post-processing at the end of `ABIF.read`, keyed by the effective
type code and the user flag: type 10 builds a `datetime.date`, type 11 a
`datetime.time`, a user entry is wrapped by `bytes(value)`, anything else
passes through. -/
def postValue (ty : Int) (user : Bool) (v : PyVal) : Except PyErr PyVal :=
  if ty = 10 then pyDate v
  else if ty = 11 then pyTime v
  else if user then pyBytes v
  else .ok v

/-- `ABIF.read(tag, number)`: look up the directory record (`KeyError`
becomes `AttributeError`; touching `self.directory` on an unopened reader
triggers `__getattr__` and its `ValueError`), force a user type to the
unsigned-byte primitive, build the format string (the element count is
interpolated only when it differs from 1), decode inline (`size <= 4`,
payload re-packed with `'>l'`) or at the offset, and post-process by
effective type code. -/
def mRead (tag : List Nat) (number : Int) (st : ABIFState) : StResult PyVal :=
  match st.directory with
  | none => (.error (.valueError notOpenedMsg), st)
  | some d =>
    match dictGet d (tag, number) with
    | none => (.error .attributeError, st)
    | some (type0, elements, size, off) =>
      let user : Bool := 1024 ≤ type0
      let ty : Int := if 1024 ≤ type0 then 1 else type0
      match pyIndex TYPES ty with
      | none => (.error .indexError, st)
      | some token =>
        let fmt : List Char :=
          if elements = 1 then '>' :: token
          else '>' :: (intChars elements ++ token)
        let decoded : StResult PyVal :=
          if size ≤ 4 then
            match structPackL off with
            | .error e => (.error e, st)
            | .ok packed => mUnpack fmt (some packed) none st
          else mUnpack fmt none (some off) st
        bindR decoded fun value st =>
          match postValue ty user value with
          | .error e => (.error e, st)
          | .ok v => (.ok v, st)

/-- `ABIF.__getattr__(attr)`: `'directory'` means the reader is unopened;
a name longer than 4 characters splits into tag and `int(number)` and is
read; anything else is an `AttributeError`. -/
def mGetattr (attr : List Nat) (st : ABIFState) : StResult PyVal :=
  if attr = strBytes "directory" then (.error (.valueError notOpenedMsg), st)
  else if 4 < attr.length then
    match strToInt (attr.drop 4) with
    | none => (.error (.valueError "invalid literal for int"), st)
    | some num => mRead (attr.take 4) num st
  else (.error .attributeError, st)

/-- Attribute access `abif.<tag><number>` under the metaclass-generated
surface: a pair present in the tag catalog has a class property calling
`read(tag, number)`; per Python attribute semantics an `AttributeError`
escaping a property getter falls back to `__getattr__` with the composed
name, while any other exception propagates. A pair absent from the catalog
has no property, so lookup goes straight to `__getattr__`. -/
def mGetAttribute (tag : List Nat) (num : Int) (inCatalog : Bool)
    (st : ABIFState) : StResult PyVal :=
  if inCatalog then
    match mRead tag num st with
    | (.error .attributeError, st2) => mGetattr (tag ++ strOfInt num) st2
    | r => r
  else mGetattr (tag ++ strOfInt num) st

/-- The error component of a method result. -/
def resErr {α : Type} (r : StResult α) : Option PyErr :=
  match r with
  | (.error e, _) => some e
  | (.ok _, _) => none

/-- The value component of a method result. -/
def resVal {α : Type} (r : StResult α) : Option α :=
  match r with
  | (.ok a, _) => some a
  | (.error _, _) => none

/-- The state component of a method result. -/
def resSt {α : Type} (r : StResult α) : ABIFState := r.2

/-- A fresh reader over the given source bytes. -/
def initState (data : List Nat) : ABIFState :=
  ⟨⟨data, 0, false⟩, none, none, none, none, none⟩

/-- A source whose single directory record has tag bytes `AB\x00\x00` and
whose record bytes at positions 4..8 are `00 00 00 05`: the code reads
tag-number 5 from the 32-bit field, while a 16-bit tag-number layout reads
0 from positions 4..6. -/
def c1File : List Nat :=
  ([65, 66, 73, 70] ++ [0, 1]) ++
  ([116, 100, 105, 114] ++ [0, 0, 0, 1] ++ [0, 23] ++ [0, 28] ++
    [0, 0, 0, 1] ++ [0, 0, 0, 28] ++ [0, 0, 0, 34] ++ [0, 0, 0, 0]) ++
  ([65, 66, 0, 0] ++ [0, 0, 0, 5] ++ [0, 4] ++ [0, 2] ++
    [0, 0, 0, 1] ++ [0, 0, 0, 2] ++ [1, 2, 0, 0] ++ [0, 0, 0, 0])

/-- The single directory record of `c1File` (bytes 34..62). -/
def c1Record : List Nat :=
  [65, 66, 0, 0] ++ [0, 0, 0, 5] ++ [0, 4] ++ [0, 2] ++
    [0, 0, 0, 1] ++ [0, 0, 0, 2] ++ [1, 2, 0, 0] ++ [0, 0, 0, 0]

/-- A source whose bootstrap record announces two directory entries but
whose directory table holds only one (`DATA1`) before EOF: `open` fails
midway with a partially populated directory. -/
def c4File : List Nat :=
  ([65, 66, 73, 70] ++ [0, 1]) ++
  ([116, 100, 105, 114] ++ [0, 0, 0, 1] ++ [0, 23] ++ [0, 28] ++
    [0, 0, 0, 2] ++ [0, 0, 0, 56] ++ [0, 0, 0, 34] ++ [0, 0, 0, 0]) ++
  ([68, 65, 84, 65] ++ [0, 0, 0, 1] ++ [0, 4] ++ [0, 2] ++
    [0, 0, 0, 1] ++ [0, 0, 0, 2] ++ [1, 2, 0, 0] ++ [0, 0, 0, 0])

/-- The reader over `c4File` after its failed `open`. -/
def c4Failed : ABIFState := resSt (mOpen (initState c4File))

/-- The signed big-endian field of width `w` at byte position `k` of a
record, as the `ITEM` format decodes it. -/
def sField (bs : List Nat) (k w : Nat) : Int :=
  toSigned w (beNat ((bs.drop k).take w))

/-- Remove all trailing NUL code points. -/
def trimNulsRight (s : List Nat) : List Nat :=
  (s.reverse.dropWhile (· = 0)).reverse

/-- The directory-record layout exactly as the specification claims it:
tag-name of 4 ASCII bytes trimmed of trailing NUL, tag-number a big-endian
16-bit integer at bytes 4..6, type-code at 6..8, 4 unused bytes,
element-count at 12..16, total-byte-size at 16..20, payload at 20..24,
4 unused bytes; the record keyed by (tag-name, tag-number). Stated for the
refinement comparison against the decoding the code performs. -/
def specRecordLayout (bs : List Nat) :
    Option ((List Nat × Int) × (Int × Int × Int × Int)) :=
  if bs.length = 28 then
    match utf8Decode (bs.take 4) with
    | some tag =>
      some ((trimNulsRight tag, (beNat ((bs.drop 4).take 2) : Int)),
        ((beNat ((bs.drop 6).take 2) : Int), (beNat ((bs.drop 12).take 4) : Int),
          (beNat ((bs.drop 16).take 4) : Int), (beNat ((bs.drop 20).take 4) : Int)))
    | none => none
  else none

/-- A reader whose source is empty and whose directory is an (opened but)
empty dict: the smallest state on which lookups miss. -/
def emptyDirState : ABIFState :=
  ⟨⟨[], 0, false⟩, some false, some 101, some 34, some 0, some []⟩

/-- A reader positioned at the start of a source holding exactly the
`c1Record` bytes, directory already initialised empty: the state on which
one directory-loop iteration runs. -/
def c1LoopState : ABIFState :=
  ⟨⟨c1Record, 0, false⟩, none, some 1, some 34, some 1, some []⟩

/-- A 40-byte all-zero source: long enough for both fixed reads, but its
first 4 bytes are not the `ABIF` magic. -/
def badMagicFile : List Nat := List.replicate 40 0

/-- A source with the 4 payload bytes `packBE 4 4 = [0,0,0,4]` stored at
byte offset 4 (for comparing the inline and offset decode paths). -/
def c6State : ABIFState := initState [9, 9, 9, 9, 0, 0, 0, 4]

/-- An opened reader whose directory holds a type-10 `RUND1` entry with
inline payload bytes 7 232 1 15 (the fields (2024, 1, 15)) and a type-11
`RUNT1` entry with inline payload bytes 13 5 9 0 (the fields
(13, 5, 9) and a zero hundredths byte). Inline payloads live in the
directory slot, so the source bytes are not consulted. -/
def dtState : ABIFState :=
  ⟨⟨[], 0, false⟩, some false, some 101, some 34, some 2,
    some [((strBytes "RUND", 1), (10, 1, 4, 132645135)),
          ((strBytes "RUNT", 1), (11, 1, 4, 218433792))]⟩

/-- An opened reader with two user-type entries: `Rate1` of type 1024 with
one element (inline payload bytes 5 0 0 0) and `PEAK1` of type 2048 with
three elements (inline payload bytes 10 11 12 0). -/
def userState : ABIFState :=
  ⟨⟨[], 0, false⟩, some false, some 101, some 34, some 2,
    some [((strBytes "Rate", 1), (1024, 1, 1, 83886080)),
          ((strBytes "PEAK", 1), (2048, 3, 3, 168496128))]⟩

/-- An opened reader with a one-byte string entry `PCON1` of type 19 whose
inline payload bytes are 255 0 0 0: its single byte 255 is not valid text. -/
def pconState : ABIFState :=
  ⟨⟨[], 0, false⟩, some false, some 101, some 34, some 1,
    some [((strBytes "PCON", 1), (19, 1, 1, -16777216))]⟩

/-- An opened reader holding only the signed-short entry `DATA1`. -/
def dataState : ABIFState :=
  ⟨⟨[], 0, false⟩, some false, some 101, some 34, some 1,
    some [((strBytes "DATA", 1), (4, 1, 2, 16908288))]⟩

/-! ## Helper lemmas about the `struct` layer -/

theorem parseFmt_ITEM : parseFmt ITEM = some [(4, .cs), (1, .ci), (2, .ch), (4, .ci)] := rfl

theorem parseFmt_HEADER : parseFmt HEADER = some [(4, .cs), (1, .ch)] := rfl

theorem beNat_single (b : Nat) : beNat [b] = b := by simp [beNat]

theorem packBE_length (w : Nat) (i : Int) : (packBE w i).length = w := by simp [packBE]

/-- The `ITEM` format `>4si2h4i` decodes a 28-byte record into the 4 tag
bytes, a signed 32-bit tag number at bytes 4..8, signed 16-bit fields at
8..10 and 10..12, and signed 32-bit fields at 12..16, 16..20, 20..24 and
24..28, all big-endian. -/
theorem structUnpack_ITEM (bs : List Nat) (h : bs.length = 28) :
    structUnpack ITEM bs = .ok [.bytes (bs.take 4), .int (sField bs 4 4),
      .int (sField bs 8 2), .int (sField bs 10 2), .int (sField bs 12 4),
      .int (sField bs 16 4), .int (sField bs 20 4), .int (sField bs 24 4)] := by
  rw [structUnpack, parseFmt_ITEM]
  simp only [itemsSize, codeSize, h]
  norm_num
  simp only [unpackItems, replicateVals, unpackFixed, codeSize, sField, List.drop_drop]
  norm_num

theorem structUnpack_HEADER (bs : List Nat) (h : bs.length = 6) :
    structUnpack HEADER bs = .ok [.bytes (bs.take 4), .int (sField bs 4 2)] := by
  rw [structUnpack, parseFmt_HEADER]
  simp only [itemsSize, codeSize, h]
  norm_num
  simp only [unpackItems, replicateVals, unpackFixed, codeSize, sField, List.drop_drop]
  norm_num

theorem structUnpack_HEADER_err (bs : List Nat) (h : bs.length ≠ 6) :
    structUnpack HEADER bs = .error .structError := by
  rw [structUnpack, parseFmt_HEADER]
  simp only [itemsSize, codeSize]
  norm_num
  omega

theorem structUnpack_ITEM_err (bs : List Nat) (h : bs.length ≠ 28) :
    structUnpack ITEM bs = .error .structError := by
  rw [structUnpack, parseFmt_ITEM]
  simp only [itemsSize, codeSize]
  norm_num
  omega

theorem structUnpack_B (bs : List Nat) (h : bs.length = 1) :
    structUnpack ['>', 'B'] bs = .ok [.int (beNat bs)] := by
  rw [structUnpack]
  have hpp : parseFmt ['>', 'B'] = some [(1, .cB)] := rfl
  rw [hpp]
  simp [h, unpackItems, replicateVals, unpackFixed, codeSize, itemsSize,
    List.take_of_length_le (le_of_eq h)]

/-! ## Helper lemmas about `_unpack` and `read` -/

/-- `_unpack(fmt, offset=0)` behaves as `_unpack(fmt)`: `if offset:` is
falsy for 0, so no seek happens. -/
theorem mUnpack_offset_zero (fmt : List Char) (packed : Option (List Nat)) (st : ABIFState) :
    mUnpack fmt packed (some 0) st = mUnpack fmt packed none st := by
  rw [mUnpack, mUnpack]
  simp

/-- `_unpack(fmt)` on an open file reads `calcsize fmt` bytes at the cursor
and decodes them. -/
theorem mUnpack_read_none (fmt : List Char) (sz : Nat) (st : ABIFState)
    (hsz : calcsizeE fmt = .ok sz) (hcl : st.fileobj.fclosed = false) :
    mUnpack fmt none none st =
      (let bs := (st.fileobj.data.drop st.fileobj.pos).take sz
       let st2 := { st with fileobj := { st.fileobj with pos := st.fileobj.pos + bs.length } }
       match structUnpack fmt bs with
       | .error e => (.error e, st2)
       | .ok vals =>
         match vals with
         | [v] =>
           match decodeSingle v with
           | .error e => (.error e, st2)
           | .ok v2 => (.ok v2, st2)
         | _ => (.ok (.list vals), st2)) := by
  rw [mUnpack]
  simp only [bindR, hsz, FileObj.readBytes, hcl]
  simp

theorem mUnpack_B_packed (p : List Nat) (hp : p.length = 4) (st : ABIFState) :
    mUnpack ['>', 'B'] (some p) none st = (.ok (.int (beNat (p.take 1))), st) := by
  rw [mUnpack]
  have hc : calcsizeE ['>', 'B'] = .ok 1 := rfl
  simp only [bindR, hc]
  have hlen : (p.take 1).length = 1 := by simp [hp]
  rw [structUnpack_B _ hlen]
  simp [decodeSingle]

theorem pyBytes_ok_bytes (v r : PyVal) (h : pyBytes v = .ok r) : ∃ bs, r = .bytes bs := by
  cases v with
  | int i =>
    rw [pyBytes] at h
    split at h
    · cases h; exact ⟨_, rfl⟩
    · cases h
  | bool b => cases h; exact ⟨_, rfl⟩
  | bytes bs => cases h; exact ⟨bs, rfl⟩
  | list vs =>
    rw [pyBytes] at h
    rcases hb : pyByteList vs with e | l
    · rw [hb] at h; cases h
    · rw [hb] at h; cases h; exact ⟨l, rfl⟩
  | str s => cases h
  | float32 b => cases h
  | float64 b => cases h
  | date y m d => cases h
  | time a b c d => cases h

theorem pyIndex_TYPES_one : pyIndex TYPES (1 : Int) = some ['B'] := rfl

/-- `read` on an opened reader whose directory lacks the key raises
`AttributeError` (the `KeyError` handler) and leaves the state unchanged. -/
theorem mRead_absent (st : ABIFState) (d : List ((List Nat × Int) × (Int × Int × Int × Int)))
    (tag : List Nat) (num : Int)
    (hdir : st.directory = some d) (hget : dictGet d (tag, num) = none) :
    mRead tag num st = (.error .attributeError, st) := by
  simp [mRead, hdir, hget]

/-! ## Claim C1 -/

/-- Claim C1, counterexample: the claimed record layout (tag-name NUL
trimmed, tag-number a big-endian 16-bit integer at bytes 4..6) disagrees
with what the code decodes. Opening `c1File` stores its single record under
the key `(tag bytes 65 66 0 0, number 5)` — the tag keeps its trailing NULs
and the number comes from the 32-bit field at bytes 4..8 — whereas the
spec's layout of the very same record bytes yields the key
`(tag 65 66, number 0)`: the numbers 5 and 0 and the two tag spellings
differ. -/
theorem c1_counterexample :
    (resSt (mOpen (initState c1File))).directory =
      some [(([65, 66, 0, 0], 5), (4, 1, 2, 16908288))] ∧
    specRecordLayout c1Record = some (([65, 66], 0), (5, 1, 2, 16908288)) ∧
    (5 : Int) ≠ 0 ∧ ([65, 66, 0, 0] : List Nat) ≠ [65, 66] :=
  ⟨rfl, rfl, by decide, by decide⟩

/-- Claim C1 (amended): each 28-byte directory record is decoded with the
layout tag-name (4 bytes, text-decoded, not NUL-trimmed) + tag-number
(big-endian signed 32-bit at bytes 4..8) + type-code (16-bit at 8..10) +
2 unused bytes + element-count (32-bit at 12..16) + total-byte-size (32-bit
at 16..20) + payload (32-bit at 20..24) + 4 unused bytes, and stored in the
directory keyed by (tag-name, tag-number). -/
theorem c1_amended_record_layout (st : ABIFState) (bs tag : List Nat)
    (d : List ((List Nat × Int) × (Int × Int × Int × Int)))
    (hcl : st.fileobj.fclosed = false)
    (hbs : (st.fileobj.data.drop st.fileobj.pos).take 28 = bs)
    (hlen : bs.length = 28)
    (htag : utf8Decode (bs.take 4) = some tag)
    (hdir : st.directory = some d) :
    resErr (mReadDirLoop 1 st) = none ∧
    (resSt (mReadDirLoop 1 st)).directory =
      some (dictSet d (tag, sField bs 4 4)
        (sField bs 8 2, sField bs 12 4, sField bs 16 4, sField bs 20 4)) := by
  rw [mReadDirLoop]
  rw [mUnpack_read_none ITEM 28 st rfl hcl]
  simp only [hbs, structUnpack_ITEM bs hlen, htag, hdir]
  simp [mReadDirLoop, bindR, resErr, resSt, htag]

/-- Witness for C1 (amended): one loop iteration over the concrete record
`c1Record` stores the key `(tag bytes 65 66 0 0, number 5)` with value
`(type 4, count 1, size 2, payload 16908288)`. -/
theorem c1_amended_record_layout_witness :
    resErr (mReadDirLoop 1 c1LoopState) = none ∧
    (resSt (mReadDirLoop 1 c1LoopState)).directory =
      some [(([65, 66, 0, 0], 5), (4, 1, 2, 16908288))] := by
  have h := c1_amended_record_layout c1LoopState c1Record [65, 66, 0, 0] []
    rfl rfl rfl rfl rfl
  exact ⟨h.1, by rw [h.2]; rfl⟩

/-! ## Claim C2 -/

/-- Claim C2, counterexample: reading the single-element string entry
`PCON1` of `pconState`, whose one payload byte 255 is not valid text,
raises `UnicodeDecodeError` — the decode does raise merely because the
bytes are not valid text, and no raw-bytes fallback happens (`_unpack`
catches only the `AttributeError` of non-bytes values, not decoding
failures). -/
theorem c2_counterexample :
    resErr (mRead (strBytes "PCON") 1 pconState) = some .unicodeDecodeError := rfl

/-- Claim C2 (amended): a decoded single-element value that is not a byte
sequence (an int, a bool, …) is returned unchanged — the `AttributeError`
of its missing text-decode is swallowed — but a single-element byte value
that cannot be decoded as text raises `UnicodeDecodeError`. -/
theorem c2_amended_nontext_behavior (b : List Nat) (i : Int) (bo : Bool)
    (h : utf8Decode b = none) :
    decodeSingle (.bytes b) = .error .unicodeDecodeError ∧
    decodeSingle (.int i) = .ok (.int i) ∧
    decodeSingle (.bool bo) = .ok (.bool bo) :=
  ⟨by simp [decodeSingle, h], rfl, rfl⟩

/-- Witness for C2 (amended), at the byte 255 and the int 7. -/
theorem c2_amended_nontext_behavior_witness :
    decodeSingle (.bytes [255]) = .error .unicodeDecodeError ∧
    decodeSingle (.int 7) = .ok (.int 7) ∧
    decodeSingle (.bool true) = .ok (.bool true) :=
  c2_amended_nontext_behavior [255] 7 true rfl

/-! ## Claim C3 -/

/-- Claim C3, counterexample: on the opened reader `dataState`, querying
`DATA2` (a pair in the tag catalog, absent from this file's directory) and
querying `XXXX9` (a pair absent from the catalog entirely) both fail with
the same plain `AttributeError` — the two failures are not distinct, and no
`UnknownTagError`/`UnrecognizedNameError` classes exist in the code. -/
theorem c3_counterexample :
    resErr (mGetAttribute (strBytes "DATA") 2 true dataState) = some .attributeError ∧
    resErr (mGetAttribute (strBytes "XXXX") 9 false dataState) = some .attributeError ∧
    resErr (mGetAttribute (strBytes "DATA") 2 true dataState) =
      resErr (mGetAttribute (strBytes "XXXX") 9 false dataState) :=
  ⟨rfl, rfl, rfl⟩

/-- Claim C3 (amended): querying a syntactically valid (tag, number) pair
absent from the open file's directory fails with `AttributeError` whether
or not the pair is in the tag catalog: the catalog-generated property calls
`read`, whose `AttributeError` falls back to `__getattr__`, which re-parses
the name and calls `read` again; a non-catalog name goes to `__getattr__`
directly. The code does not distinguish the two cases. -/
theorem c3_amended_same_error (st : ABIFState)
    (d : List ((List Nat × Int) × (Int × Int × Int × Int)))
    (tag s : List Nat) (num : Int) (inCat : Bool)
    (hdir : st.directory = some d)
    (hget : dictGet d (tag, num) = none)
    (htag : tag.length = 4)
    (hs : s = strOfInt num)
    (hparse : strToInt s = some num)
    (hname : tag ++ s ≠ strBytes "directory") :
    resErr (mGetAttribute tag num inCat st) = some .attributeError := by
  have hsne : s ≠ [] := by
    intro hnil
    rw [hnil] at hparse
    cases hparse
  have htake : (tag ++ s).take 4 = tag := by rw [← htag]; exact List.take_left tag s
  have hdrop : (tag ++ s).drop 4 = s := by rw [← htag]; exact List.drop_left tag s
  have hlen : 4 < (tag ++ s).length := by
    rw [List.length_append, htag]
    cases s with
    | nil => exact absurd rfl hsne
    | cons a t => simp
  have hgetattr : mGetattr (tag ++ s) st = (.error .attributeError, st) := by
    rw [mGetattr, if_neg hname, if_pos hlen, hdrop, hparse, htake]
    exact mRead_absent st d tag num hdir hget
  rw [mGetAttribute]
  cases inCat with
  | true =>
    rw [mRead_absent st d tag num hdir hget, ← hs]
    simp [hgetattr, resErr]
  | false =>
    rw [← hs]
    simp [hgetattr, resErr]

/-- Witness for C3 (amended): on a reader with an empty directory, the
catalog pair `(DATA, 2)` fails with `AttributeError`. -/
theorem c3_amended_same_error_witness :
    resErr (mGetAttribute (strBytes "DATA") 2 true emptyDirState) = some .attributeError :=
  c3_amended_same_error emptyDirState [] (strBytes "DATA") [50] 2 true
    rfl rfl rfl rfl rfl (by decide)

/-! ## Claim C4 -/

/-- Claim C4, counterexample: `open` on `c4File` fails (with a
`struct.error`, its directory table being truncated), so open has not
succeeded — yet reading the `DATA1` entry that the failed open already
stored succeeds with the value 258 instead of failing with the not-opened
`ValueError`. -/
theorem c4_counterexample :
    resErr (mOpen (initState c4File)) = some .structError ∧
    resVal (mRead (strBytes "DATA") 1 c4Failed) = some (.int 258) :=
  ⟨rfl, rfl⟩

/-- Claim C4 (amended): for every reader whose directory has never been
populated (no open attempt reached the directory-reading stage), reading
any entry fails with the `ValueError` of `__getattr__('directory')` — the
code's not-opened error — which is distinct from the structural errors
(`AssertionError`, `struct.error`) and from the unknown-tag error
(`AttributeError`). A failed open that already populated part of the
directory escapes this guarantee. -/
theorem c4_amended_not_opened (st : ABIFState) (tag : List Nat) (num : Int)
    (h : st.directory = none) :
    resErr (mRead tag num st) = some (.valueError notOpenedMsg) ∧
    PyErr.valueError notOpenedMsg ≠ .assertionError ∧
    PyErr.valueError notOpenedMsg ≠ .structError ∧
    PyErr.valueError notOpenedMsg ≠ .attributeError :=
  ⟨by simp [mRead, h, resErr], by simp, by simp, by simp⟩

/-- Witness for C4 (amended): a freshly constructed, never-opened reader
fails this way on `DATA1`. -/
theorem c4_amended_not_opened_witness :
    resErr (mRead (strBytes "DATA") 1 (initState c4File)) =
      some (.valueError notOpenedMsg) ∧
    PyErr.valueError notOpenedMsg ≠ .assertionError ∧
    PyErr.valueError notOpenedMsg ≠ .structError ∧
    PyErr.valueError notOpenedMsg ≠ .attributeError :=
  c4_amended_not_opened (initState c4File) (strBytes "DATA") 1 rfl

/-! ## Claim C5 -/

/-- Claim C5: every directory entry with type-code at least 1024 is decoded
with the unsigned-byte primitive (the effective type is forced to 1, whose
`TYPES` token is `B`) and, whenever the read succeeds, the returned value
is a raw byte sequence — never the nominal scalar type — regardless of the
declared element count. -/
theorem c5_user_type_yields_bytes (st : ABIFState)
    (d : List ((List Nat × Int) × (Int × Int × Int × Int)))
    (tag : List Nat) (num t0 el sz off : Int)
    (hdir : st.directory = some d)
    (hget : dictGet d (tag, num) = some (t0, el, sz, off))
    (ht : 1024 ≤ t0)
    (hsucc : resErr (mRead tag num st) = none) :
    ∃ bs, resVal (mRead tag num st) = some (.bytes bs) := by
  simp only [mRead, hdir, hget, if_pos ht, pyIndex_TYPES_one] at hsucc ⊢
  by_cases hsz : sz ≤ 4
  · simp only [if_pos hsz] at hsucc ⊢
    rcases hpk : structPackL off with e | packed
    · simp [hpk, bindR, resErr] at hsucc
    · simp only [hpk] at hsucc ⊢
      rcases hU : mUnpack (if el = 1 then ['>', 'B'] else '>' :: (intChars el ++ ['B']))
          (some packed) none st with ⟨exc, st2⟩
      cases exc with
      | error e => simp [hU, bindR, resErr] at hsucc
      | ok value =>
        simp only [hU, bindR] at hsucc ⊢
        rcases hP : postValue 1 (decide (1024 ≤ t0)) value with e | v
        · simp [hP, resErr] at hsucc
        · simp only [hP, resVal]
          have hb : pyBytes value = .ok v := by
            rw [postValue] at hP
            simpa [decide_eq_true ht] using hP
          obtain ⟨bs, hbs⟩ := pyBytes_ok_bytes value v hb
          exact ⟨bs, by rw [hbs]⟩
  · simp only [if_neg hsz] at hsucc ⊢
    rcases hU : mUnpack (if el = 1 then ['>', 'B'] else '>' :: (intChars el ++ ['B']))
        none (some off) st with ⟨exc, st2⟩
    cases exc with
    | error e => simp [hU, bindR, resErr] at hsucc
    | ok value =>
      simp only [hU, bindR] at hsucc ⊢
      rcases hP : postValue 1 (decide (1024 ≤ t0)) value with e | v
      · simp [hP, resErr] at hsucc
      · simp only [hP, resVal]
        have hb : pyBytes value = .ok v := by
          rw [postValue] at hP
          simpa [decide_eq_true ht] using hP
        obtain ⟨bs, hbs⟩ := pyBytes_ok_bytes value v hb
        exact ⟨bs, by rw [hbs]⟩

/-- Witness for C5: the `PEAK1` entry of `userState` has type-code 2048 and
element-count 3, and reading it yields a byte sequence. -/
theorem c5_user_type_yields_bytes_witness :
    ∃ bs, resVal (mRead (strBytes "PEAK") 1 userState) = some (.bytes bs) :=
  c5_user_type_yields_bytes userState
    [((strBytes "Rate", 1), (1024, 1, 1, 83886080)),
     ((strBytes "PEAK", 1), (2048, 3, 3, 168496128))]
    (strBytes "PEAK") 1 2048 3 3 168496128 rfl rfl (by norm_num) rfl

/-! ## Claim C6 -/

/-- Claim C6: for a single-element entry of total-byte-size at most 4
(`calcsize fmt ≤ 4`), decoding the 4-byte payload via the inline path
(the payload re-packed by `struct.pack('>l', …)` and passed as the buffer)
and decoding the same payload bytes placed at a file offset via the offset
path produce the same outcome — the same decoded value on success and the
same error otherwise. -/
theorem c6_inline_offset_agree (st : ABIFState) (fmt : List Char)
    (items : List (Nat × FCode)) (off : Int) (packed : List Nat)
    (hp : parseFmt fmt = some items) (hsz : itemsSize items ≤ 4)
    (hcl : st.fileobj.fclosed = false)
    (hpk : structPackL off = .ok packed)
    (hoff : 0 < off)
    (hdata : (st.fileobj.data.drop off.toNat).take 4 = packed) :
    resVal (mUnpack fmt (some packed) none st) = resVal (mUnpack fmt none (some off) st) ∧
    resErr (mUnpack fmt (some packed) none st) = resErr (mUnpack fmt none (some off) st) := by
  have hbytes : (st.fileobj.data.drop off.toNat).take (itemsSize items) =
      packed.take (itemsSize items) := by
    rw [← hdata, List.take_take]
    congr 1
    omega
  rw [mUnpack, mUnpack]
  simp only [bindR, Option.isSome_none, Bool.false_eq_true, if_false, FileObj.seekTo, hcl]
  rw [if_pos (show off ≠ 0 by omega), if_neg (show ¬ off < 0 by omega)]
  simp only [calcsizeE, hp, bindR, FileObj.readBytes, hcl]
  norm_num
  rw [hbytes]
  rcases hS : structUnpack fmt (packed.take (itemsSize items)) with e | vals
  · simp [resVal, resErr]
  · match vals with
    | [] => simp [resVal, resErr]
    | [v] =>
      rcases hD : decodeSingle v with e2 | v2 <;> simp [resVal, resErr, hD]
    | v :: w :: t => simp [resVal, resErr]

/-- Witness for C6: a signed-short format over the payload of offset value
4, whose 4 packed bytes also sit at byte offset 4 of `c6State`. -/
theorem c6_inline_offset_agree_witness :
    resVal (mUnpack ['>', 'h'] (some (packBE 4 4)) none c6State) =
      resVal (mUnpack ['>', 'h'] none (some 4) c6State) ∧
    resErr (mUnpack ['>', 'h'] (some (packBE 4 4)) none c6State) =
      resErr (mUnpack ['>', 'h'] none (some 4) c6State) :=
  c6_inline_offset_agree c6State ['>', 'h'] [(1, .ch)] 4 (packBE 4 4)
    rfl (by decide) rfl rfl (by norm_num) rfl

/-! ## Claim C7 -/

/-- Claim C7: a source whose first 4 bytes are not the `ABIF` magic, or
whose bootstrap tag-name at bytes 6..10 is not `tdir`, or whose bootstrap
count field at bytes 10..14 is not 1, makes `open` fail — with the
`AssertionError` of the failed format check, or with a `struct.error` when
the source is too short for the fixed reads (the spec's `FormatError`
covers both) — and the directory mapping stays in its unopened state. -/
theorem c7_open_failure_no_directory (data : List Nat)
    (hbad : ¬(data.take 4 = strBytes "ABIF" ∧ (data.drop 6).take 4 = strBytes "tdir" ∧
              toSigned 4 (beNat ((data.drop 10).take 4)) = 1)) :
    (resErr (mOpen (initState data)) = some .assertionError ∨
     resErr (mOpen (initState data)) = some .structError) ∧
    (resSt (mOpen (initState data))).directory = none := by
  rw [mOpen, mReadHeader, mUnpack_offset_zero,
    mUnpack_read_none HEADER 6 (initState data) rfl rfl]
  simp only [initState, List.drop_zero]
  by_cases hl6 : data.length < 6
  · rw [structUnpack_HEADER_err _ (by simp; omega)]
    simp [bindR, resErr, resSt]
  · push_neg at hl6
    rw [structUnpack_HEADER (data.take 6) (by simp; omega)]
    simp only [List.take_take, bindR]
    norm_num
    by_cases hmagic : data.take 4 = strBytes "ABIF"
    · rw [if_pos hmagic]
      rw [mUnpack_read_none ITEM 28 _ rfl rfl]
      simp only [List.length_take]
      have h6 : min 6 data.length = 6 := by omega
      rw [h6]
      by_cases hl34 : data.length < 34
      · rw [structUnpack_ITEM_err _ (by simp; omega)]
        simp [bindR, resErr, resSt]
      · push_neg at hl34
        rw [structUnpack_ITEM ((data.drop 6).take 28) (by simp; omega)]
        simp only [List.take_take, bindR]
        norm_num
        by_cases htdir : (data.drop 6).take 4 = strBytes "tdir"
        · rw [if_pos htdir]
          have hone : ¬ (sField ((data.drop 6).take 28) 4 4 = 1) := by
            simp only [sField, List.drop_take, List.take_take]
            norm_num
            intro hc
            exact hbad ⟨hmagic, htdir, hc⟩
          simp only [pyEqInt]
          rw [if_neg (by simpa using hone)]
          simp [resErr, resSt]
        · rw [if_neg htdir]
          simp [resErr, resSt]
    · rw [if_neg hmagic]
      simp [resErr, resSt]

/-- Witness for C7: the all-zero 40-byte source fails the magic check. -/
theorem c7_open_failure_no_directory_witness :
    (resErr (mOpen (initState badMagicFile)) = some .assertionError ∨
     resErr (mOpen (initState badMagicFile)) = some .structError) ∧
    (resSt (mOpen (initState badMagicFile))).directory = none :=
  c7_open_failure_no_directory badMagicFile (by decide)

/-! ## Claim C8 -/

/-- Claim C8: on `dtState`, the type-code 10 entry `RUND1` with payload
bytes 7 232 1 15 — the fields (2024, 1, 15) — decodes to the calendar date
2024-01-15, and the type-code 11 entry `RUNT1` with payload bytes
13 5 9 0 — the fields (13, 5, 9) and a zero hundredths byte — decodes to
the clock time 13:05:09. -/
theorem c8_date_time_decoding :
    resVal (mRead (strBytes "RUND") 1 dtState) = some (.date 2024 1 15) ∧
    resVal (mRead (strBytes "RUNT") 1 dtState) = some (.time 13 5 9 0) :=
  ⟨rfl, rfl⟩

/-! ## Claim C9 -/

/-- Claim C9: `close` is idempotent on an opened reader. The flag stays
`False` (the code never flips it), so a second `close` calls the file
object's own idempotent close again: the result is the same state and no
error. -/
theorem c9_close_idempotent (st : ABIFState) (h : st.closedFlag = some false) :
    mClose (resSt (mClose st)) = (.ok (), resSt (mClose st)) := by
  simp [mClose, resSt, h, FileObj.closeFile]

/-- Witness for C9: closing the opened reader `emptyDirState` twice. -/
theorem c9_close_idempotent_witness :
    mClose (resSt (mClose emptyDirState)) = (.ok (), resSt (mClose emptyDirState)) :=
  c9_close_idempotent emptyDirState rfl

/-! ## Claim C10 -/

/-- Claim C10: a user-type entry (type-code at least 1024) with
element-count 1 decodes to `bytes(n)` — that is, `n` NUL bytes — where `n`
is the unsigned-byte value decoded from the payload: the first byte of the
re-packed payload on the inline path (`size ≤ 4`), or the byte at the
payload offset on the offset path. The payload byte's own value is not
preserved in the returned bytes. -/
theorem c10_user_scalar_nul_bytes (st : ABIFState)
    (d : List ((List Nat × Int) × (Int × Int × Int × Int)))
    (tag : List Nat) (num t0 sz off : Int)
    (hdir : st.directory = some d)
    (hget : dictGet d (tag, num) = some (t0, 1, sz, off))
    (ht : 1024 ≤ t0)
    (hlo : -(2 ^ 31) ≤ off) (hhi : off < 2 ^ 31) :
    (sz ≤ 4 →
      resVal (mRead tag num st) =
        some (.bytes (List.replicate (beNat ((packBE 4 off).take 1)) 0))) ∧
    (∀ b rest, 4 < sz → 0 < off → st.fileobj.fclosed = false →
      st.fileobj.data.drop off.toNat = b :: rest →
      resVal (mRead tag num st) = some (.bytes (List.replicate b 0))) := by
  constructor
  · intro hsz
    simp only [mRead, hdir, hget, if_pos ht, pyIndex_TYPES_one, if_pos hsz]
    have hpk : structPackL off = .ok (packBE 4 off) := by
      rw [structPackL, if_pos ⟨hlo, hhi⟩]
    simp only [hpk]
    norm_num
    rw [mUnpack_B_packed (packBE 4 off) (packBE_length 4 off) st]
    simp [bindR, postValue, decide_eq_true ht, pyBytes, resVal]
  · intro b rest hsz hoff hcl hdrop
    simp only [mRead, hdir, hget, if_pos ht, pyIndex_TYPES_one,
      if_neg (show ¬ sz ≤ 4 by omega)]
    norm_num
    rw [mUnpack]
    simp only [bindR, FileObj.seekTo, hcl]
    rw [if_pos (show off ≠ 0 by omega), if_neg (show ¬ off < 0 by omega)]
    have hc : calcsizeE ['>', 'B'] = .ok 1 := rfl
    simp only [hc, bindR, FileObj.readBytes]
    norm_num
    rw [hdrop]
    have hsu : structUnpack ['>', 'B'] [b] = .ok [.int b] := by
      rw [structUnpack_B [b] rfl, beNat_single]
    simp [hsu, decodeSingle, bindR, postValue, decide_eq_true ht, pyBytes, resVal]

/-- Witness for C10: the `Rate1` entry of `userState` (type 1024, one
element, payload bytes 5 0 0 0) reads as five NUL bytes — not the byte 5. -/
theorem c10_user_scalar_nul_bytes_witness :
    resVal (mRead (strBytes "Rate") 1 userState) = some (.bytes [0, 0, 0, 0, 0]) :=
  ((c10_user_scalar_nul_bytes userState
    [((strBytes "Rate", 1), (1024, 1, 1, 83886080)),
     ((strBytes "PEAK", 1), (2048, 3, 3, 168496128))]
    (strBytes "Rate") 1 1024 1 83886080
    rfl rfl (by norm_num) (by norm_num) (by norm_num)).1 (by norm_num)).trans rfl

end PyABIF
